import Mathlib

/-!
# Session authenticator for the bootstrap user

A shallow embedding of `pkg/oauthserver/server/session/bootstrapauthenticator.go`.

The decorator `bootstrapAuthenticator` wraps a `SessionAuthenticator` and
changes its behaviour for one user name, `bootstrap.BootstrapUser`.  Its three
methods are effectful: they call the delegate, the credential lookup
`bootstrap.HashAndUID` and the session write `putUser`.  The embedding passes
an explicit `World`: the state of the external collaborators together with the
log of the calls the decorator has made, in order.  A method call on a nil
`user.Info` is a Go run-time panic and is an explicit outcome.
-/

namespace session

/-! ## Go values -/

/-- A Go `error` value: `none` is `nil`, `some msg` a non-nil error. -/
abbrev GoError := Option String

/-- A non-nil `user.Info`: what the getters of the interface return. -/
structure UserInfo where
  name : String
  uid : String
  groups : List String
  deriving DecidableEq, Repr

/-- A Go `user.Info` interface value: `none` is the nil interface. -/
abbrev Info := Option UserInfo

/-- A Go `time.Duration`: a count of nanoseconds. -/
abbrev Duration := Int

def Nanosecond : Duration := 1
def Microsecond : Duration := 1000 * Nanosecond
def Millisecond : Duration := 1000 * Microsecond
def Second : Duration := 1000 * Millisecond
def Minute : Duration := 60 * Second
def Hour : Duration := 60 * Minute

/-- A `*http.Request`, by identity. -/
structure Request where
  id : Nat
  deriving DecidableEq, Repr

/-- A `http.ResponseWriter`, by identity; what has been written to it is part
of the external state. -/
structure ResponseWriter where
  id : Nat
  deriving DecidableEq, Repr

/-- A session `Store`, by identity; its contents are part of the external state. -/
structure Store where
  id : Nat
  deriving DecidableEq, Repr

/-- A `v1.SecretsGetter` client. -/
structure SecretsGetter where
  client : Nat
  deriving DecidableEq, Repr

/-- A `v1.SecretInterface`: a secrets client scoped to one namespace. -/
structure SecretInterface where
  client : Nat
  ns : String
  deriving DecidableEq, Repr

/-- A `v1.NamespacesGetter` client. -/
structure NamespacesGetter where
  client : Nat
  deriving DecidableEq, Repr

/-- A `v1.NamespaceInterface`. -/
structure NamespaceInterface where
  client : Nat
  deriving DecidableEq, Repr

def SecretsGetter.Secrets (g : SecretsGetter) (ns : String) : SecretInterface :=
  { client := g.client, ns := ns }

def NamespacesGetter.Namespaces (g : NamespacesGetter) : NamespaceInterface :=
  { client := g.client }

/-- The constant `metav1.NamespaceSystem`. -/
def NamespaceSystem : String := "kube-system"

/-! ## Outcomes and the world -/

/-- How a Go call ends: it returns a value, or it panics on a nil dereference. -/
inductive Outcome (α : Type) where
  | ret (a : α)
  | panic
  deriving DecidableEq, Repr

/-- The calls the decorator makes to its collaborators, with their arguments. -/
inductive Call where
  | delegateAuthenticateRequest (req : Request)
  | delegateAuthenticationSucceeded (user : Info) (state : String)
      (w : ResponseWriter) (req : Request)
  | delegateInvalidateAuthentication (w : ResponseWriter) (user : Info)
  | HashAndUID (secrets : SecretInterface) (namespaces : NamespaceInterface)
  | putUser (store : Store) (w : ResponseWriter) (user : Info) (expires : Duration)
  deriving DecidableEq, Repr

/-- The state a method runs in: the state `ext` of everything outside the
decorator (session store, response sinks, credential store, the delegate's own
state) and the log of the decorator's calls, oldest first. -/
structure World (σ : Type) where
  ext : σ
  trace : List Call

/-- The `SessionAuthenticator` interface, as implemented by a delegate: each
method returns its Go results and the external state it leaves. -/
structure SessionAuthenticator (σ : Type) where
  AuthenticateRequest : Request → σ → (Info × Bool × GoError) × σ
  AuthenticationSucceeded :
    Info → String → ResponseWriter → Request → σ → (Bool × GoError) × σ
  InvalidateAuthentication : ResponseWriter → Info → σ → GoError × σ

/-- What the file uses and does not define: the constant
`bootstrap.BootstrapUser`, the credential lookup `bootstrap.HashAndUID`
(a read of the credential store: it returns hash, uid, found flag and error
and leaves the external state as it is) and the session write `putUser` of the
same package. They are parameters of the embedding. -/
structure Externals (σ : Type) where
  BootstrapUser : String
  HashAndUID : SecretInterface → NamespaceInterface → σ → String × String × Bool × GoError
  putUser : Store → ResponseWriter → Info → Duration → σ → GoError × σ

/-- The struct `bootstrapAuthenticator`. -/
structure bootstrapAuthenticator (σ : Type) where
  delegate : SessionAuthenticator σ
  secrets : SecretInterface
  namespaces : NamespaceInterface
  store : Store

/-- The constructor `NewBootstrapAuthenticator`. -/
def NewBootstrapAuthenticator {σ : Type} (delegate : SessionAuthenticator σ)
    (secrets : SecretsGetter) (namespaces : NamespacesGetter) (store : Store) :
    bootstrapAuthenticator σ :=
  { delegate := delegate
    secrets := secrets.Secrets NamespaceSystem
    namespaces := namespaces.Namespaces
    store := store }

/-- The getter `GetName` of `user.Info`; on the nil interface it panics. -/
def GetName : Info → Outcome String
  | some i => .ret i.name
  | none => .panic

/-- The getter `GetUID` of `user.Info`; on the nil interface it panics. -/
def GetUID : Info → Outcome String
  | some i => .ret i.uid
  | none => .panic

/-- Run a collaborator that may change the external state, and log the call. -/
def World.call {σ α : Type} (w : World σ) (c : Call) (f : σ → α × σ) : α × World σ :=
  ((f w.ext).1, { ext := (f w.ext).2, trace := w.trace ++ [c] })

/-- Run a collaborator that only reads the external state, and log the call. -/
def World.read {σ α : Type} (w : World σ) (c : Call) (f : σ → α) : α × World σ :=
  (f w.ext, { ext := w.ext, trace := w.trace ++ [c] })

/-! ## The three methods -/

/-- The method `(*bootstrapAuthenticator).AuthenticateRequest`. -/
def bootstrapAuthenticator.AuthenticateRequest {σ : Type} (x : Externals σ)
    (b : bootstrapAuthenticator σ) (req : Request) (w0 : World σ) :
    Outcome (Info × Bool × GoError) × World σ :=
  -- u, ok, err := b.delegate.AuthenticateRequest(req)
  match w0.call (.delegateAuthenticateRequest req) (b.delegate.AuthenticateRequest req) with
  | ((u, ok, err), w1) =>
    -- if err != nil || !ok || u.GetName() != bootstrap.BootstrapUser { return u, ok, err }
    if err ≠ none ∨ ok = false then (.ret (u, ok, err), w1) else
    match GetName u with
    | .panic => (.panic, w1)
    | .ret name =>
      if name ≠ x.BootstrapUser then (.ret (u, ok, err), w1) else
      -- _, uid, ok, err := bootstrap.HashAndUID(b.secrets, b.namespaces)
      match w1.read (.HashAndUID b.secrets b.namespaces)
          (x.HashAndUID b.secrets b.namespaces) with
      | ((_, uid, ok, err), w2) =>
        -- if err != nil || !ok { return nil, ok, err }
        if err ≠ none ∨ ok = false then (.ret (none, ok, err), w2) else
        -- if uid != u.GetUID() { return nil, false, nil }
        match GetUID u with
        | .panic => (.panic, w2)
        | .ret uuid =>
          if uid ≠ uuid then (.ret (none, false, none), w2) else
          -- return u, true, nil
          (.ret (u, true, none), w2)

/-- The method `(*bootstrapAuthenticator).AuthenticationSucceeded`. -/
def bootstrapAuthenticator.AuthenticationSucceeded {σ : Type} (x : Externals σ)
    (b : bootstrapAuthenticator σ) (user : Info) (state : String) (w : ResponseWriter)
    (req : Request) (w0 : World σ) : Outcome (Bool × GoError) × World σ :=
  match GetName user with
  | .panic => (.panic, w0)
  | .ret name =>
    -- if user.GetName() != bootstrap.BootstrapUser { return b.delegate.AuthenticationSucceeded(...) }
    if name ≠ x.BootstrapUser then
      match w0.call (.delegateAuthenticationSucceeded user state w req)
          (b.delegate.AuthenticationSucceeded user state w req) with
      | (r, w1) => (.ret r, w1)
    else
      -- return false, putUser(b.store, w, user, time.Hour)
      match w0.call (.putUser b.store w user Hour) (x.putUser b.store w user Hour) with
      | (e, w1) => (.ret (false, e), w1)

/-- The method `(*bootstrapAuthenticator).InvalidateAuthentication`. -/
def bootstrapAuthenticator.InvalidateAuthentication {σ : Type} (x : Externals σ)
    (b : bootstrapAuthenticator σ) (w : ResponseWriter) (user : Info) (w0 : World σ) :
    Outcome GoError × World σ :=
  match GetName user with
  | .panic => (.panic, w0)
  | .ret name =>
    -- if user.GetName() != bootstrap.BootstrapUser { return b.delegate.InvalidateAuthentication(w, user) }
    if name ≠ x.BootstrapUser then
      match w0.call (.delegateInvalidateAuthentication w user)
          (b.delegate.InvalidateAuthentication w user) with
      | (e, w1) => (.ret e, w1)
    else
      -- return nil
      (.ret none, w0)

/-! ## Counting the decorator's calls -/

def Call.isDelegate : Call → Bool
  | .delegateAuthenticateRequest _ => true
  | .delegateAuthenticationSucceeded _ _ _ _ => true
  | .delegateInvalidateAuthentication _ _ => true
  | _ => false

def Call.isHashAndUID : Call → Bool
  | .HashAndUID _ _ => true
  | _ => false

def Call.isPutUser : Call → Bool
  | .putUser _ _ _ _ => true
  | _ => false

/-- The number of calls to the delegate in a log. -/
def delegateCalls (t : List Call) : Nat := t.countP Call.isDelegate

/-- The number of calls to `bootstrap.HashAndUID` in a log. -/
def oracleCalls (t : List Call) : Nat := t.countP Call.isHashAndUID

/-- The number of calls to `putUser` in a log. -/
def storeWrites (t : List Call) : Nat := t.countP Call.isPutUser

/-! ## Concrete collaborators

Small collaborators over an external state that records what each of them did,
used to run the methods on concrete inputs. -/

def aliceInfo : UserInfo := { name := "alice", uid := "a1", groups := ["users"] }

def bootstrapInfo : UserInfo := { name := "bootstrap-user", uid := "v1", groups := [] }

/-- A delegate that answers `AuthenticateRequest` with `r`, the success hook
with `h` and the invalidate hook with `e`, and notes each call in the state. -/
def fixedDelegate (r : Info × Bool × GoError) (h : Bool × GoError) (e : GoError) :
    SessionAuthenticator (List String) :=
  { AuthenticateRequest := fun _ s => (r, s ++ ["delegate.AuthenticateRequest"])
    AuthenticationSucceeded := fun _ _ _ _ s => (h, s ++ ["delegate.AuthenticationSucceeded"])
    InvalidateAuthentication := fun _ _ s => (e, s ++ ["delegate.InvalidateAuthentication"]) }

/-- Externals with bootstrap name `bootstrap-user`, a credential lookup that
answers `o`, and a session write that answers `e` and notes the write. -/
def fixedExternals (o : String × String × Bool × GoError) (e : GoError) :
    Externals (List String) :=
  { BootstrapUser := "bootstrap-user"
    HashAndUID := fun _ _ _ => o
    putUser := fun _ _ _ _ s => (e, s ++ ["putUser"]) }

/-- A decorator around `fixedDelegate`. -/
def fixedAuthenticator (r : Info × Bool × GoError) (h : Bool × GoError) (e : GoError) :
    bootstrapAuthenticator (List String) :=
  NewBootstrapAuthenticator (fixedDelegate r h e) { client := 0 } { client := 0 } { id := 0 }

/-- The world before any call. -/
def world0 : World (List String) := { ext := [], trace := [] }

/-! ## Calls in sequence -/

/-- A caller that invokes `InvalidateAuthentication` `n` times in a row with
the same response sink and identity, each call starting in the world the one
before left. It returns the outcomes of the calls, in order, and the final
world. -/
def invalidateTimes {σ : Type} (x : Externals σ) (b : bootstrapAuthenticator σ)
    (w : ResponseWriter) (user : Info) : Nat → World σ → List (Outcome GoError) × World σ
  | 0, w0 => ([], w0)
  | n + 1, w0 =>
    match b.InvalidateAuthentication x w user w0 with
    | (r, w1) =>
      match invalidateTimes x b w user n w1 with
      | (rs, w2) => (r :: rs, w2)

/-! ## Theorems -/

/-- C1. `AuthenticateRequest` passthrough: when the delegate returns
`(u, ok, err)` with `err` non-nil, or `ok` false, or `u` an identity whose name
is not `bootstrap.BootstrapUser`, the decorator returns exactly `(u, ok, err)`
whatever the credential lookup would answer, and leaves the world as the
delegate left it: the only call logged is the one to the delegate. -/
theorem AuthenticateRequest_passthrough {σ : Type} (x : Externals σ)
    (b : bootstrapAuthenticator σ) (req : Request) (w0 : World σ)
    (u : Info) (ok : Bool) (err : GoError) (s1 : σ)
    (hd : b.delegate.AuthenticateRequest req w0.ext = ((u, ok, err), s1))
    (h : err ≠ none ∨ ok = false ∨ ∃ i, u = some i ∧ i.name ≠ x.BootstrapUser) :
    b.AuthenticateRequest x req w0 =
      (.ret (u, ok, err),
        { ext := s1, trace := w0.trace ++ [.delegateAuthenticateRequest req] }) := by
  unfold bootstrapAuthenticator.AuthenticateRequest World.call
  rw [hd]
  by_cases h1 : err ≠ none ∨ ok = false
  · simp only [h1, if_true]
  · simp only [h1, if_false]
    rcases h with h | h | ⟨i, rfl, hi⟩
    · exact absurd (Or.inl h) h1
    · exact absurd (Or.inr h) h1
    · simp only [GetName, hi, ne_eq, not_false_eq_true, if_true]

/-- C1, the scenario of the specification: the delegate authenticates `alice`
and the decorator returns `(aliceInfo, true, nil)`; the credential lookup is
not called. -/
theorem AuthenticateRequest_passthrough_witness :
    (fixedAuthenticator (some aliceInfo, true, none) (false, none) none).AuthenticateRequest
        (fixedExternals ("h2", "v2", true, none) none) { id := 7 } world0 =
      (.ret (some aliceInfo, true, none),
        { ext := ["delegate.AuthenticateRequest"],
          trace := [] ++ [.delegateAuthenticateRequest { id := 7 }] }) :=
  AuthenticateRequest_passthrough (fixedExternals ("h2", "v2", true, none) none)
    (fixedAuthenticator (some aliceInfo, true, none) (false, none) none) { id := 7 } world0
    (some aliceInfo) true none ["delegate.AuthenticateRequest"] rfl
    (Or.inr (Or.inr ⟨aliceInfo, rfl, by decide⟩))

/-- What `AuthenticateRequest` does once the delegate has authenticated the
bootstrap user: the result is decided by the answer of the credential lookup,
read in the state the delegate left, and the lookup is logged after the
delegate call. -/
theorem AuthenticateRequest_bootstrap {σ : Type} (x : Externals σ)
    (b : bootstrapAuthenticator σ) (req : Request) (w0 : World σ)
    (i : UserInfo) (s1 : σ) (hash uid : String) (found : Bool) (e : GoError)
    (hd : b.delegate.AuthenticateRequest req w0.ext = ((some i, true, none), s1))
    (hn : i.name = x.BootstrapUser)
    (ho : x.HashAndUID b.secrets b.namespaces s1 = (hash, uid, found, e)) :
    b.AuthenticateRequest x req w0 =
      (if e ≠ none ∨ found = false then .ret (none, found, e)
        else if uid ≠ i.uid then .ret (none, false, none)
        else .ret (some i, true, none),
        { ext := s1
          trace := w0.trace ++ [.delegateAuthenticateRequest req] ++
            [.HashAndUID b.secrets b.namespaces] }) := by
  unfold bootstrapAuthenticator.AuthenticateRequest World.call World.read
  rw [hd]
  simp only [GetName, GetUID, hn, ho, ne_eq, not_true_eq_false, Bool.true_eq_false,
    or_self, if_false]
  by_cases h1 : ¬e = none ∨ found = false
  · simp only [h1, if_true]
  · by_cases h2 : uid = i.uid
    · simp only [h1, h2, if_false, not_true_eq_false]
    · simp only [h1, h2, if_false, not_false_eq_true, if_true]

/-- C2. Stale credential: the delegate authenticates the bootstrap user, the
credential lookup finds the credential without error, and its version token
differs from the identity's UID; then `AuthenticateRequest` returns
`(nil, false, nil)`. -/
theorem AuthenticateRequest_stale_rejected {σ : Type} (x : Externals σ)
    (b : bootstrapAuthenticator σ) (req : Request) (w0 : World σ)
    (i : UserInfo) (s1 : σ) (hash uid : String)
    (hd : b.delegate.AuthenticateRequest req w0.ext = ((some i, true, none), s1))
    (hn : i.name = x.BootstrapUser)
    (ho : x.HashAndUID b.secrets b.namespaces s1 = (hash, uid, true, none))
    (hv : uid ≠ i.uid) :
    (b.AuthenticateRequest x req w0).1 = .ret (none, false, none) := by
  rw [AuthenticateRequest_bootstrap x b req w0 i s1 hash uid true none hd hn ho]
  simp [hv]

/-- C2, the scenario of the specification: the session carries version token
`v1`, the live token is `v2`, and the decorator returns `(nil, false, nil)`. -/
theorem AuthenticateRequest_stale_rejected_witness :
    ((fixedAuthenticator (some bootstrapInfo, true, none) (false, none) none).AuthenticateRequest
        (fixedExternals ("h2", "v2", true, none) none) { id := 7 } world0).1 =
      .ret (none, false, none) :=
  AuthenticateRequest_stale_rejected (fixedExternals ("h2", "v2", true, none) none)
    (fixedAuthenticator (some bootstrapInfo, true, none) (false, none) none) { id := 7 } world0
    bootstrapInfo ["delegate.AuthenticateRequest"] "h2" "v2" rfl rfl rfl (by decide)

/-- C3. Fresh session: the delegate authenticates the bootstrap user, the
credential lookup finds the credential without error, and its version token
equals the identity's UID; then `AuthenticateRequest` returns `(u, true, nil)`
with `u` the identity the delegate returned. -/
theorem AuthenticateRequest_fresh_accepted {σ : Type} (x : Externals σ)
    (b : bootstrapAuthenticator σ) (req : Request) (w0 : World σ)
    (i : UserInfo) (s1 : σ) (hash uid : String)
    (hd : b.delegate.AuthenticateRequest req w0.ext = ((some i, true, none), s1))
    (hn : i.name = x.BootstrapUser)
    (ho : x.HashAndUID b.secrets b.namespaces s1 = (hash, uid, true, none))
    (hv : uid = i.uid) :
    (b.AuthenticateRequest x req w0).1 = .ret (some i, true, none) := by
  rw [AuthenticateRequest_bootstrap x b req w0 i s1 hash uid true none hd hn ho]
  simp [hv]

/-- C3, the scenario of the specification: the session carries version token
`v1`, the lookup answers `(h2, v1, true, nil)`, and the decorator returns
`(bootstrapInfo, true, nil)`. -/
theorem AuthenticateRequest_fresh_accepted_witness :
    ((fixedAuthenticator (some bootstrapInfo, true, none) (false, none) none).AuthenticateRequest
        (fixedExternals ("h2", "v1", true, none) none) { id := 7 } world0).1 =
      .ret (some bootstrapInfo, true, none) :=
  AuthenticateRequest_fresh_accepted (fixedExternals ("h2", "v1", true, none) none)
    (fixedAuthenticator (some bootstrapInfo, true, none) (false, none) none) { id := 7 } world0
    bootstrapInfo ["delegate.AuthenticateRequest"] "h2" "v1" rfl rfl rfl rfl

/-- C4, as stated, fails: the delegate authenticates the bootstrap user and the
credential lookup answers a non-nil error together with found flag `true`; the
decorator returns `(nil, true, err)`, not `(nil, false, err)`. -/
theorem AuthenticateRequest_oracle_error_counterexample :
    (fixedAuthenticator (some bootstrapInfo, true, none) (false, none) none).delegate.AuthenticateRequest
        { id := 7 } world0.ext =
      ((some bootstrapInfo, true, none), ["delegate.AuthenticateRequest"]) ∧
    bootstrapInfo.name = (fixedExternals ("h2", "v1", true, some "lookup failed") none).BootstrapUser ∧
    (fixedExternals ("h2", "v1", true, some "lookup failed") none).HashAndUID
        (fixedAuthenticator (some bootstrapInfo, true, none) (false, none) none).secrets
        (fixedAuthenticator (some bootstrapInfo, true, none) (false, none) none).namespaces
        ["delegate.AuthenticateRequest"] =
      ("h2", "v1", true, some "lookup failed") ∧
    ((fixedAuthenticator (some bootstrapInfo, true, none) (false, none) none).AuthenticateRequest
        (fixedExternals ("h2", "v1", true, some "lookup failed") none) { id := 7 } world0).1 =
      .ret (none, true, some "lookup failed") ∧
    ((fixedAuthenticator (some bootstrapInfo, true, none) (false, none) none).AuthenticateRequest
        (fixedExternals ("h2", "v1", true, some "lookup failed") none) { id := 7 } world0).1 ≠
      .ret (none, false, some "lookup failed") := by
  refine ⟨rfl, rfl, rfl, rfl, ?_⟩
  intro h
  have h2 : (Outcome.ret ((none : Info), true, (some "lookup failed" : GoError))) =
      .ret (none, false, some "lookup failed") := h
  simp at h2

/-- C4, amended. The delegate authenticates the bootstrap user and the
credential lookup answers a non-nil error `e` with found flag `found`; then
`AuthenticateRequest` returns `(nil, found, e)`: a nil identity, the found flag
of the lookup and the error of the lookup. -/
theorem AuthenticateRequest_oracle_error {σ : Type} (x : Externals σ)
    (b : bootstrapAuthenticator σ) (req : Request) (w0 : World σ)
    (i : UserInfo) (s1 : σ) (hash uid : String) (found : Bool) (e : String)
    (hd : b.delegate.AuthenticateRequest req w0.ext = ((some i, true, none), s1))
    (hn : i.name = x.BootstrapUser)
    (ho : x.HashAndUID b.secrets b.namespaces s1 = (hash, uid, found, some e)) :
    (b.AuthenticateRequest x req w0).1 = .ret (none, found, some e) := by
  rw [AuthenticateRequest_bootstrap x b req w0 i s1 hash uid found (some e) hd hn ho]
  simp

/-- C4, amended, on a lookup that fails with found flag `false`: the decorator
returns `(nil, false, err)`. -/
theorem AuthenticateRequest_oracle_error_witness :
    ((fixedAuthenticator (some bootstrapInfo, true, none) (false, none) none).AuthenticateRequest
        (fixedExternals ("", "", false, some "lookup failed") none) { id := 7 } world0).1 =
      .ret (none, false, some "lookup failed") :=
  AuthenticateRequest_oracle_error (fixedExternals ("", "", false, some "lookup failed") none)
    (fixedAuthenticator (some bootstrapInfo, true, none) (false, none) none) { id := 7 } world0
    bootstrapInfo ["delegate.AuthenticateRequest"] "" "" false "lookup failed" rfl rfl rfl

/-- C5. Credential not provisioned: the delegate authenticates the bootstrap
user and the credential lookup answers found flag `false` with a nil error;
then `AuthenticateRequest` returns `(nil, false, nil)`, whatever hash and
version token came with the answer. -/
theorem AuthenticateRequest_not_found {σ : Type} (x : Externals σ)
    (b : bootstrapAuthenticator σ) (req : Request) (w0 : World σ)
    (i : UserInfo) (s1 : σ) (hash uid : String)
    (hd : b.delegate.AuthenticateRequest req w0.ext = ((some i, true, none), s1))
    (hn : i.name = x.BootstrapUser)
    (ho : x.HashAndUID b.secrets b.namespaces s1 = (hash, uid, false, none)) :
    (b.AuthenticateRequest x req w0).1 = .ret (none, false, none) := by
  rw [AuthenticateRequest_bootstrap x b req w0 i s1 hash uid false none hd hn ho]
  simp

/-- C5 on a lookup that answers not-found with the session's own version
token: the decorator returns `(nil, false, nil)`. -/
theorem AuthenticateRequest_not_found_witness :
    ((fixedAuthenticator (some bootstrapInfo, true, none) (false, none) none).AuthenticateRequest
        (fixedExternals ("h2", "v1", false, none) none) { id := 7 } world0).1 =
      .ret (none, false, none) :=
  AuthenticateRequest_not_found (fixedExternals ("h2", "v1", false, none) none)
    (fixedAuthenticator (some bootstrapInfo, true, none) (false, none) none) { id := 7 } world0
    bootstrapInfo ["delegate.AuthenticateRequest"] "h2" "v1" rfl rfl rfl

/-- C6. Lookup failure surfaces the lookup's own result: the delegate
authenticates the bootstrap user and the credential lookup answers
`(hash, uid, found, e)` with `e` non-nil or `found` false; then
`AuthenticateRequest` returns `(nil, found, e)`, the flag and error of the
lookup and not those of the delegate. -/
theorem AuthenticateRequest_surfaces_oracle_result {σ : Type} (x : Externals σ)
    (b : bootstrapAuthenticator σ) (req : Request) (w0 : World σ)
    (i : UserInfo) (s1 : σ) (hash uid : String) (found : Bool) (e : GoError)
    (hd : b.delegate.AuthenticateRequest req w0.ext = ((some i, true, none), s1))
    (hn : i.name = x.BootstrapUser)
    (ho : x.HashAndUID b.secrets b.namespaces s1 = (hash, uid, found, e))
    (hf : e ≠ none ∨ found = false) :
    (b.AuthenticateRequest x req w0).1 = .ret (none, found, e) := by
  rw [AuthenticateRequest_bootstrap x b req w0 i s1 hash uid found e hd hn ho]
  simp only [hf, if_true]

/-- C6 on a lookup that answers an error together with found flag `true`: the
decorator returns `(nil, true, err)`, where the delegate had `(u, true, nil)`. -/
theorem AuthenticateRequest_surfaces_oracle_result_witness :
    ((fixedAuthenticator (some bootstrapInfo, true, none) (false, none) none).AuthenticateRequest
        (fixedExternals ("h2", "v1", true, some "lookup failed") none) { id := 7 } world0).1 =
      .ret (none, true, some "lookup failed") :=
  AuthenticateRequest_surfaces_oracle_result
    (fixedExternals ("h2", "v1", true, some "lookup failed") none)
    (fixedAuthenticator (some bootstrapInfo, true, none) (false, none) none) { id := 7 } world0
    bootstrapInfo ["delegate.AuthenticateRequest"] "h2" "v1" true (some "lookup failed")
    rfl rfl rfl (Or.inl (by simp))

/-- The log of `AuthenticateRequest`: the call to the delegate, and after it
the credential lookup exactly when the delegate returned the bootstrap user
with `ok` true and a nil error. -/
theorem AuthenticateRequest_trace {σ : Type} (x : Externals σ)
    (b : bootstrapAuthenticator σ) (req : Request) (w0 : World σ)
    (u : Info) (ok : Bool) (err : GoError) (s1 : σ)
    (hd : b.delegate.AuthenticateRequest req w0.ext = ((u, ok, err), s1)) :
    (b.AuthenticateRequest x req w0).2.trace =
      w0.trace ++ [.delegateAuthenticateRequest req] ++
        (if err = none ∧ ok = true ∧ u.map UserInfo.name = some x.BootstrapUser
          then [.HashAndUID b.secrets b.namespaces] else []) := by
  by_cases h : err = none ∧ ok = true ∧ u.map UserInfo.name = some x.BootstrapUser
  · obtain ⟨rfl, rfl, hu⟩ := h
    cases u with
    | none => simp at hu
    | some i =>
      have hn : i.name = x.BootstrapUser := by simpa using hu
      rw [AuthenticateRequest_bootstrap x b req w0 i s1 _ _ _ _ hd hn rfl]
      simp [hn]
  · rw [if_neg h, List.append_nil]
    unfold bootstrapAuthenticator.AuthenticateRequest World.call World.read
    rw [hd]
    by_cases h1 : err ≠ none ∨ ok = false
    · simp only [h1, if_true]
    · have he : err = none := by
        by_contra hc
        exact h1 (Or.inl hc)
      have hk : ok = true := by
        cases ok with
        | true => rfl
        | false => exact absurd (Or.inr rfl) h1
      subst he hk
      cases u with
      | none => simp [GetName]
      | some i =>
        have hn : i.name ≠ x.BootstrapUser := by
          intro hc
          exact h ⟨rfl, rfl, by simp [hc]⟩
        simp [GetName, hn]

/-- C7. Short circuit: with `(u, ok, err)` the delegate's result, if `err` is
non-nil, or `ok` is false, or `u` is not an identity named
`bootstrap.BootstrapUser`, the call adds no `bootstrap.HashAndUID` call to the
log; a call that does add one had `err` nil, `ok` true and `u` named
`bootstrap.BootstrapUser`, and then it adds exactly one. -/
theorem AuthenticateRequest_short_circuit {σ : Type} (x : Externals σ)
    (b : bootstrapAuthenticator σ) (req : Request) (w0 : World σ)
    (u : Info) (ok : Bool) (err : GoError) (s1 : σ)
    (hd : b.delegate.AuthenticateRequest req w0.ext = ((u, ok, err), s1)) :
    ((err ≠ none ∨ ok = false ∨ ∀ i, u = some i → i.name ≠ x.BootstrapUser) →
      oracleCalls (b.AuthenticateRequest x req w0).2.trace = oracleCalls w0.trace) ∧
    (oracleCalls (b.AuthenticateRequest x req w0).2.trace ≠ oracleCalls w0.trace →
      err = none ∧ ok = true ∧ ∃ i, u = some i ∧ i.name = x.BootstrapUser) ∧
    ((err = none ∧ ok = true ∧ ∃ i, u = some i ∧ i.name = x.BootstrapUser) →
      oracleCalls (b.AuthenticateRequest x req w0).2.trace = oracleCalls w0.trace + 1) := by
  rw [AuthenticateRequest_trace x b req w0 u ok err s1 hd]
  by_cases h : err = none ∧ ok = true ∧ u.map UserInfo.name = some x.BootstrapUser
  · obtain ⟨rfl, rfl, hu⟩ := h
    cases u with
    | none => simp at hu
    | some i =>
      have hn : i.name = x.BootstrapUser := by simpa using hu
      refine ⟨?_, ?_, ?_⟩
      · intro hc
        rcases hc with hc | hc | hc
        · exact absurd rfl hc
        · exact absurd hc (by decide)
        · exact absurd hn (hc i rfl)
      · intro _
        exact ⟨rfl, rfl, i, rfl, hn⟩
      · intro _
        simp [hn, oracleCalls, List.countP_append, Call.isHashAndUID]
  · rw [if_neg h]
    refine ⟨?_, ?_, ?_⟩
    · intro _
      simp [oracleCalls, List.countP_append, Call.isHashAndUID]
    · intro hc
      exact absurd (by simp [oracleCalls, List.countP_append, Call.isHashAndUID]) hc
    · rintro ⟨he, hk, i, rfl, hn⟩
      exact absurd ⟨he, hk, by simp [hn]⟩ h

/-- C7 on a delegate that fails with an error while naming the bootstrap user:
the lookup count stays as it was, as the first part says. -/
theorem AuthenticateRequest_short_circuit_witness :
    oracleCalls ((fixedAuthenticator (some bootstrapInfo, false, some "bad cookie") (false, none)
        none).AuthenticateRequest (fixedExternals ("h2", "v1", true, none) none)
        { id := 7 } world0).2.trace = oracleCalls world0.trace :=
  (AuthenticateRequest_short_circuit (fixedExternals ("h2", "v1", true, none) none)
    (fixedAuthenticator (some bootstrapInfo, false, some "bad cookie") (false, none) none)
    { id := 7 } world0 (some bootstrapInfo) false (some "bad cookie")
    ["delegate.AuthenticateRequest"] rfl).1 (Or.inl (by simp))

/-- C8. Success hook for the bootstrap user: for an identity named
`bootstrap.BootstrapUser`, `AuthenticationSucceeded` makes one `putUser` call,
with the decorator's store, the given response sink, that identity and
`time.Hour`, which is 3600 seconds; it returns `(false, e)` with `e` the error
of that write and leaves the state the write left; the log gains exactly one
session write; and nothing of this depends on the `state` argument. -/
theorem AuthenticationSucceeded_bootstrap {σ : Type} (x : Externals σ)
    (b : bootstrapAuthenticator σ) (i : UserInfo) (state : String) (w : ResponseWriter)
    (req : Request) (w0 : World σ) (hn : i.name = x.BootstrapUser) :
    b.AuthenticationSucceeded x (some i) state w req w0 =
      (.ret (false, (x.putUser b.store w (some i) Hour w0.ext).1),
        { ext := (x.putUser b.store w (some i) Hour w0.ext).2
          trace := w0.trace ++ [.putUser b.store w (some i) Hour] }) ∧
    Hour = 3600 * Second ∧ Second = 1000000000 * Nanosecond ∧
    storeWrites (b.AuthenticationSucceeded x (some i) state w req w0).2.trace =
      storeWrites w0.trace + 1 ∧
    ∀ state2 : String, b.AuthenticationSucceeded x (some i) state2 w req w0 =
      b.AuthenticationSucceeded x (some i) state w req w0 := by
  have key : ∀ st : String, b.AuthenticationSucceeded x (some i) st w req w0 =
      (.ret (false, (x.putUser b.store w (some i) Hour w0.ext).1),
        { ext := (x.putUser b.store w (some i) Hour w0.ext).2
          trace := w0.trace ++ [.putUser b.store w (some i) Hour] }) := by
    intro st
    simp [bootstrapAuthenticator.AuthenticationSucceeded, World.call, GetName, hn]
  refine ⟨key state, by decide, by decide, ?_, ?_⟩
  · rw [key state]
    simp [storeWrites, List.countP_append, Call.isPutUser]
  · intro state2
    rw [key state2, key state]

/-- C8 on a session write that fails: the hook returns `(false, err)` with the
error of the write, after one `putUser` call with a time-to-live of one hour. -/
theorem AuthenticationSucceeded_bootstrap_witness :
    (fixedAuthenticator (some bootstrapInfo, true, none) (true, none) none).AuthenticationSucceeded
        (fixedExternals ("h2", "v1", true, none) (some "store down")) (some bootstrapInfo)
        "state-a" { id := 3 } { id := 7 } world0 =
      (.ret (false, some "store down"),
        { ext := ["putUser"]
          trace := [.putUser { id := 0 } { id := 3 } (some bootstrapInfo) 3600000000000] }) :=
  (AuthenticationSucceeded_bootstrap (fixedExternals ("h2", "v1", true, none) (some "store down"))
    (fixedAuthenticator (some bootstrapInfo, true, none) (true, none) none) bootstrapInfo
    "state-a" { id := 3 } { id := 7 } world0 rfl).1

/-- C9. Success hook passthrough: for an identity whose name is not
`bootstrap.BootstrapUser`, `AuthenticationSucceeded` makes one call to the
delegate's `AuthenticationSucceeded` with the same four arguments, returns the
delegate's pair and leaves the state the delegate left; the log gains one
delegate call and no session write. -/
theorem AuthenticationSucceeded_passthrough {σ : Type} (x : Externals σ)
    (b : bootstrapAuthenticator σ) (i : UserInfo) (state : String) (w : ResponseWriter)
    (req : Request) (w0 : World σ) (hn : i.name ≠ x.BootstrapUser) :
    b.AuthenticationSucceeded x (some i) state w req w0 =
      (.ret (b.delegate.AuthenticationSucceeded (some i) state w req w0.ext).1,
        { ext := (b.delegate.AuthenticationSucceeded (some i) state w req w0.ext).2
          trace := w0.trace ++ [.delegateAuthenticationSucceeded (some i) state w req] }) ∧
    delegateCalls (b.AuthenticationSucceeded x (some i) state w req w0).2.trace =
      delegateCalls w0.trace + 1 ∧
    storeWrites (b.AuthenticationSucceeded x (some i) state w req w0).2.trace =
      storeWrites w0.trace := by
  have key : b.AuthenticationSucceeded x (some i) state w req w0 =
      (.ret (b.delegate.AuthenticationSucceeded (some i) state w req w0.ext).1,
        { ext := (b.delegate.AuthenticationSucceeded (some i) state w req w0.ext).2
          trace := w0.trace ++ [.delegateAuthenticationSucceeded (some i) state w req] }) := by
    simp [bootstrapAuthenticator.AuthenticationSucceeded, World.call, GetName, hn]
  refine ⟨key, ?_, ?_⟩
  · rw [key]
    simp [delegateCalls, List.countP_append, Call.isDelegate]
  · rw [key]
    simp [storeWrites, List.countP_append, Call.isPutUser]

/-- C9 on `alice` and a delegate that answers `(true, err)`: the hook returns
that pair and the session store is not written. -/
theorem AuthenticationSucceeded_passthrough_witness :
    (fixedAuthenticator (some aliceInfo, true, none) (true, some "redirect failed")
        none).AuthenticationSucceeded (fixedExternals ("h2", "v1", true, none) none)
        (some aliceInfo) "state-a" { id := 3 } { id := 7 } world0 =
      (.ret (true, some "redirect failed"),
        { ext := ["delegate.AuthenticationSucceeded"]
          trace := [.delegateAuthenticationSucceeded (some aliceInfo) "state-a" { id := 3 }
            { id := 7 }] }) :=
  (AuthenticationSucceeded_passthrough (fixedExternals ("h2", "v1", true, none) none)
    (fixedAuthenticator (some aliceInfo, true, none) (true, some "redirect failed") none)
    aliceInfo "state-a" { id := 3 } { id := 7 } world0 (by decide)).1

/-- C10. Invalidation of the bootstrap user is inert: for an identity named
`bootstrap.BootstrapUser`, `InvalidateAuthentication` returns nil and leaves
the world as it was: no call to the delegate, no session write and no
credential lookup is logged, and the external state is unchanged. -/
theorem InvalidateAuthentication_bootstrap {σ : Type} (x : Externals σ)
    (b : bootstrapAuthenticator σ) (w : ResponseWriter) (i : UserInfo) (w0 : World σ)
    (hn : i.name = x.BootstrapUser) :
    b.InvalidateAuthentication x w (some i) w0 = (.ret none, w0) ∧
    delegateCalls (b.InvalidateAuthentication x w (some i) w0).2.trace =
      delegateCalls w0.trace ∧
    storeWrites (b.InvalidateAuthentication x w (some i) w0).2.trace = storeWrites w0.trace ∧
    oracleCalls (b.InvalidateAuthentication x w (some i) w0).2.trace = oracleCalls w0.trace := by
  have key : b.InvalidateAuthentication x w (some i) w0 = (.ret none, w0) := by
    simp [bootstrapAuthenticator.InvalidateAuthentication, GetName, hn]
  rw [key]
  exact ⟨rfl, rfl, rfl, rfl⟩

/-- C10 on a delegate whose invalidate hook would fail: for the bootstrap user
the decorator returns nil and calls nothing. -/
theorem InvalidateAuthentication_bootstrap_witness :
    (fixedAuthenticator (some bootstrapInfo, true, none) (true, none)
        (some "logout failed")).InvalidateAuthentication
        (fixedExternals ("h2", "v1", true, none) none) { id := 3 } (some bootstrapInfo) world0 =
      (.ret none, world0) :=
  (InvalidateAuthentication_bootstrap (fixedExternals ("h2", "v1", true, none) none)
    (fixedAuthenticator (some bootstrapInfo, true, none) (true, none) (some "logout failed"))
    { id := 3 } bootstrapInfo world0 rfl).1

/-- C11. Invalidation passthrough: for an identity whose name is not
`bootstrap.BootstrapUser`, `InvalidateAuthentication` makes one call to the
delegate's `InvalidateAuthentication` with the same response sink and
identity, returns the delegate's error value, nil or not, and leaves the state
the delegate left; the log gains exactly one delegate call. -/
theorem InvalidateAuthentication_passthrough {σ : Type} (x : Externals σ)
    (b : bootstrapAuthenticator σ) (w : ResponseWriter) (i : UserInfo) (w0 : World σ)
    (hn : i.name ≠ x.BootstrapUser) :
    b.InvalidateAuthentication x w (some i) w0 =
      (.ret (b.delegate.InvalidateAuthentication w (some i) w0.ext).1,
        { ext := (b.delegate.InvalidateAuthentication w (some i) w0.ext).2
          trace := w0.trace ++ [.delegateInvalidateAuthentication w (some i)] }) ∧
    delegateCalls (b.InvalidateAuthentication x w (some i) w0).2.trace =
      delegateCalls w0.trace + 1 := by
  have key : b.InvalidateAuthentication x w (some i) w0 =
      (.ret (b.delegate.InvalidateAuthentication w (some i) w0.ext).1,
        { ext := (b.delegate.InvalidateAuthentication w (some i) w0.ext).2
          trace := w0.trace ++ [.delegateInvalidateAuthentication w (some i)] }) := by
    simp [bootstrapAuthenticator.InvalidateAuthentication, World.call, GetName, hn]
  refine ⟨key, ?_⟩
  rw [key]
  simp [delegateCalls, List.countP_append, Call.isDelegate]

/-- C11 on `alice` and a delegate whose invalidate hook fails: the decorator
returns the delegate's error after one delegate call. -/
theorem InvalidateAuthentication_passthrough_witness :
    (fixedAuthenticator (some aliceInfo, true, none) (true, none)
        (some "logout failed")).InvalidateAuthentication
        (fixedExternals ("h2", "v1", true, none) none) { id := 3 } (some aliceInfo) world0 =
      (.ret (some "logout failed"),
        { ext := ["delegate.InvalidateAuthentication"]
          trace := [.delegateInvalidateAuthentication { id := 3 } (some aliceInfo)] }) :=
  (InvalidateAuthentication_passthrough (fixedExternals ("h2", "v1", true, none) none)
    (fixedAuthenticator (some aliceInfo, true, none) (true, none) (some "logout failed"))
    { id := 3 } aliceInfo world0 (by decide)).1

/-- The three ways `AuthenticateRequest` can go, by the delegate's result
`(u, ok, err)`: it passes the result through; or it panics on a nil identity
returned with `ok` true and a nil error; or the delegate authenticated the
bootstrap user and the credential lookup, read in the state the delegate left,
decides. -/
theorem AuthenticateRequest_cases {σ : Type} (x : Externals σ)
    (b : bootstrapAuthenticator σ) (req : Request) (w0 : World σ)
    (u : Info) (ok : Bool) (err : GoError) (s1 : σ)
    (hd : b.delegate.AuthenticateRequest req w0.ext = ((u, ok, err), s1)) :
    ((err ≠ none ∨ ok = false ∨ ∃ i, u = some i ∧ i.name ≠ x.BootstrapUser) ∧
      b.AuthenticateRequest x req w0 =
        (.ret (u, ok, err),
          { ext := s1, trace := w0.trace ++ [.delegateAuthenticateRequest req] })) ∨
    (u = none ∧ ok = true ∧ err = none ∧
      b.AuthenticateRequest x req w0 =
        (.panic, { ext := s1, trace := w0.trace ++ [.delegateAuthenticateRequest req] })) ∨
    (∃ i, u = some i ∧ ok = true ∧ err = none ∧ i.name = x.BootstrapUser ∧
      b.AuthenticateRequest x req w0 =
        (if (x.HashAndUID b.secrets b.namespaces s1).2.2.2 ≠ none ∨
              (x.HashAndUID b.secrets b.namespaces s1).2.2.1 = false then
            .ret (none, (x.HashAndUID b.secrets b.namespaces s1).2.2.1,
              (x.HashAndUID b.secrets b.namespaces s1).2.2.2)
          else if (x.HashAndUID b.secrets b.namespaces s1).2.1 ≠ i.uid then
            .ret (none, false, none)
          else .ret (some i, true, none),
          { ext := s1
            trace := w0.trace ++ [.delegateAuthenticateRequest req] ++
              [.HashAndUID b.secrets b.namespaces] })) := by
  by_cases h1 : err ≠ none ∨ ok = false
  · left
    refine ⟨?_, ?_⟩
    · rcases h1 with h | h
      · exact Or.inl h
      · exact Or.inr (Or.inl h)
    · unfold bootstrapAuthenticator.AuthenticateRequest World.call
      rw [hd]
      simp only [h1, if_true]
  · have he : err = none := by
      by_contra hc
      exact h1 (Or.inl hc)
    have hk : ok = true := by
      cases ok with
      | true => rfl
      | false => exact absurd (Or.inr rfl) h1
    subst he hk
    cases u with
    | none =>
      right; left
      refine ⟨rfl, rfl, rfl, ?_⟩
      unfold bootstrapAuthenticator.AuthenticateRequest World.call
      rw [hd]
      simp [GetName]
    | some i =>
      by_cases hn : i.name = x.BootstrapUser
      · right; right
        exact ⟨i, rfl, rfl, rfl, hn,
          AuthenticateRequest_bootstrap x b req w0 i s1 _ _ _ _ hd hn rfl⟩
      · left
        refine ⟨Or.inr (Or.inr ⟨i, rfl, hn⟩), ?_⟩
        unfold bootstrapAuthenticator.AuthenticateRequest World.call
        rw [hd]
        simp [GetName, hn]

/-- C12. Session validity: when the delegate authenticates the bootstrap user
`u` and `AuthenticateRequest` returns `ok` true with a nil error, the
credential lookup, read in the state the delegate left, answered found with a
nil error and a version token equal to `u`'s UID, and the identity returned is
`u`; so with a version token that differs from `u`'s UID no result
`(identity, true, nil)` comes back. -/
theorem AuthenticateRequest_session_valid {σ : Type} (x : Externals σ)
    (b : bootstrapAuthenticator σ) (req : Request) (w0 : World σ)
    (i : UserInfo) (s1 : σ) (r : Info)
    (hd : b.delegate.AuthenticateRequest req w0.ext = ((some i, true, none), s1))
    (hn : i.name = x.BootstrapUser)
    (hr : (b.AuthenticateRequest x req w0).1 = .ret (r, true, none)) :
    (x.HashAndUID b.secrets b.namespaces s1).2.2.1 = true ∧
    (x.HashAndUID b.secrets b.namespaces s1).2.2.2 = none ∧
    (x.HashAndUID b.secrets b.namespaces s1).2.1 = i.uid ∧
    r = some i := by
  rw [AuthenticateRequest_bootstrap x b req w0 i s1 _ _ _ _ hd hn rfl] at hr
  by_cases h1 : (x.HashAndUID b.secrets b.namespaces s1).2.2.2 ≠ none ∨
      (x.HashAndUID b.secrets b.namespaces s1).2.2.1 = false
  · simp only [h1, if_true] at hr
    injection hr with hr
    have hf : (x.HashAndUID b.secrets b.namespaces s1).2.2.1 = true :=
      congrArg (fun t => t.2.1) hr
    have he : (x.HashAndUID b.secrets b.namespaces s1).2.2.2 = none :=
      congrArg (fun t => t.2.2) hr
    rcases h1 with h | h
    · exact absurd he h
    · rw [hf] at h
      exact absurd h (by decide)
  · simp only [h1, if_false] at hr
    have he : (x.HashAndUID b.secrets b.namespaces s1).2.2.2 = none := by
      by_contra hc
      exact h1 (Or.inl hc)
    have hf : (x.HashAndUID b.secrets b.namespaces s1).2.2.1 = true := by
      cases hv : (x.HashAndUID b.secrets b.namespaces s1).2.2.1 with
      | true => rfl
      | false => exact absurd (Or.inr hv) h1
    by_cases h2 : (x.HashAndUID b.secrets b.namespaces s1).2.1 = i.uid
    · simp only [h2, ne_eq, not_true_eq_false, if_false] at hr
      injection hr with hr
      exact ⟨hf, he, h2, (congrArg (fun t => t.1) hr).symm⟩
    · simp only [h2, ne_eq, not_false_eq_true, if_true] at hr
      injection hr with hr
      have hb : false = true := congrArg (fun t : Info × Bool × GoError => t.2.1) hr
      exact absurd hb (by decide)

/-- C12 on the fresh session of the specification: the decorator returns
`(bootstrapInfo, true, nil)`, and the lookup had answered found, no error and
version token `v1`, the UID of the identity. -/
theorem AuthenticateRequest_session_valid_witness :
    ((fixedExternals ("h2", "v1", true, none) none).HashAndUID
        (fixedAuthenticator (some bootstrapInfo, true, none) (false, none) none).secrets
        (fixedAuthenticator (some bootstrapInfo, true, none) (false, none) none).namespaces
        ["delegate.AuthenticateRequest"]).2.2.1 = true ∧
    ((fixedExternals ("h2", "v1", true, none) none).HashAndUID
        (fixedAuthenticator (some bootstrapInfo, true, none) (false, none) none).secrets
        (fixedAuthenticator (some bootstrapInfo, true, none) (false, none) none).namespaces
        ["delegate.AuthenticateRequest"]).2.2.2 = none ∧
    ((fixedExternals ("h2", "v1", true, none) none).HashAndUID
        (fixedAuthenticator (some bootstrapInfo, true, none) (false, none) none).secrets
        (fixedAuthenticator (some bootstrapInfo, true, none) (false, none) none).namespaces
        ["delegate.AuthenticateRequest"]).2.1 = bootstrapInfo.uid ∧
    some bootstrapInfo = some bootstrapInfo :=
  AuthenticateRequest_session_valid (fixedExternals ("h2", "v1", true, none) none)
    (fixedAuthenticator (some bootstrapInfo, true, none) (false, none) none) { id := 7 } world0
    bootstrapInfo ["delegate.AuthenticateRequest"] (some bootstrapInfo) rfl rfl rfl

/-- C13. `AuthenticateRequest` writes no session: with `s1` the state the
delegate left, the call logs no `putUser`, leaves the external state equal to
`s1`, logs at most one credential lookup and exactly one delegate call. -/
theorem AuthenticateRequest_no_store_write {σ : Type} (x : Externals σ)
    (b : bootstrapAuthenticator σ) (req : Request) (w0 : World σ)
    (u : Info) (ok : Bool) (err : GoError) (s1 : σ)
    (hd : b.delegate.AuthenticateRequest req w0.ext = ((u, ok, err), s1)) :
    storeWrites (b.AuthenticateRequest x req w0).2.trace = storeWrites w0.trace ∧
    (b.AuthenticateRequest x req w0).2.ext = s1 ∧
    oracleCalls (b.AuthenticateRequest x req w0).2.trace ≤ oracleCalls w0.trace + 1 ∧
    delegateCalls (b.AuthenticateRequest x req w0).2.trace = delegateCalls w0.trace + 1 := by
  rcases AuthenticateRequest_cases x b req w0 u ok err s1 hd with
    ⟨_, h⟩ | ⟨_, _, _, h⟩ | ⟨i, _, _, _, _, h⟩
  · rw [h]
    simp [storeWrites, oracleCalls, delegateCalls, List.countP_append, Call.isPutUser,
      Call.isHashAndUID, Call.isDelegate]
  · rw [h]
    simp [storeWrites, oracleCalls, delegateCalls, List.countP_append, Call.isPutUser,
      Call.isHashAndUID, Call.isDelegate]
  · rw [h]
    simp [storeWrites, oracleCalls, delegateCalls, List.countP_append, Call.isPutUser,
      Call.isHashAndUID, Call.isDelegate]

/-- C13 on the fresh session of the specification, where the lookup is made:
no session write is logged and the external state is the one the delegate
left. -/
theorem AuthenticateRequest_no_store_write_witness :
    storeWrites ((fixedAuthenticator (some bootstrapInfo, true, none) (false, none)
        none).AuthenticateRequest (fixedExternals ("h2", "v1", true, none) none)
        { id := 7 } world0).2.trace = storeWrites world0.trace ∧
    ((fixedAuthenticator (some bootstrapInfo, true, none) (false, none)
        none).AuthenticateRequest (fixedExternals ("h2", "v1", true, none) none)
        { id := 7 } world0).2.ext = ["delegate.AuthenticateRequest"] :=
  ⟨(AuthenticateRequest_no_store_write (fixedExternals ("h2", "v1", true, none) none)
      (fixedAuthenticator (some bootstrapInfo, true, none) (false, none) none) { id := 7 } world0
      (some bootstrapInfo) true none ["delegate.AuthenticateRequest"] rfl).1,
    (AuthenticateRequest_no_store_write (fixedExternals ("h2", "v1", true, none) none)
      (fixedAuthenticator (some bootstrapInfo, true, none) (false, none) none) { id := 7 } world0
      (some bootstrapInfo) true none ["delegate.AuthenticateRequest"] rfl).2.1⟩

/-- C14. Invalidation of the bootstrap user, repeated: for every `n`, `n`
calls of `InvalidateAuthentication` in a row for an identity named
`bootstrap.BootstrapUser` all return nil and leave the world, external state
and call log, equal to the initial one. -/
theorem InvalidateAuthentication_idempotent {σ : Type} (x : Externals σ)
    (b : bootstrapAuthenticator σ) (w : ResponseWriter) (i : UserInfo) (n : Nat)
    (w0 : World σ) (hn : i.name = x.BootstrapUser) :
    invalidateTimes x b w (some i) n w0 = (List.replicate n (.ret none), w0) := by
  have key : ∀ v : World σ, b.InvalidateAuthentication x w (some i) v = (.ret none, v) := by
    intro v
    simp [bootstrapAuthenticator.InvalidateAuthentication, GetName, hn]
  induction n with
  | zero => rfl
  | succ k ih =>
    unfold invalidateTimes
    rw [key w0]
    simp only [ih, List.replicate_succ]

/-- C14 on three calls after an earlier session write, with a delegate whose
invalidate hook would fail: all three return nil and the world is unchanged. -/
theorem InvalidateAuthentication_idempotent_witness :
    invalidateTimes (fixedExternals ("h2", "v1", true, none) none)
        (fixedAuthenticator (some bootstrapInfo, true, none) (true, none) (some "logout failed"))
        { id := 3 } (some bootstrapInfo) 3
        { ext := ["putUser"]
          trace := [.putUser { id := 0 } { id := 3 } (some bootstrapInfo) Hour] } =
      (List.replicate 3 (.ret none),
        { ext := ["putUser"]
          trace := [.putUser { id := 0 } { id := 3 } (some bootstrapInfo) Hour] }) :=
  InvalidateAuthentication_idempotent (fixedExternals ("h2", "v1", true, none) none)
    (fixedAuthenticator (some bootstrapInfo, true, none) (true, none) (some "logout failed"))
    { id := 3 } bootstrapInfo 3
    { ext := ["putUser"]
      trace := [.putUser { id := 0 } { id := 3 } (some bootstrapInfo) Hour] } rfl

/-- C15. `AuthenticateRequest` delegates first and always: for every request
and world, the entries the call adds to the log start with the delegate's
`AuthenticateRequest` on the same request, followed by nothing or by one
credential lookup; the log gains exactly one delegate call; and the delegate
runs in the initial external state, whose successor is the final state. -/
theorem AuthenticateRequest_delegates_first {σ : Type} (x : Externals σ)
    (b : bootstrapAuthenticator σ) (req : Request) (w0 : World σ) :
    (∃ rest : List Call,
      (b.AuthenticateRequest x req w0).2.trace =
        w0.trace ++ Call.delegateAuthenticateRequest req :: rest ∧
      (rest = [] ∨ rest = [.HashAndUID b.secrets b.namespaces])) ∧
    delegateCalls (b.AuthenticateRequest x req w0).2.trace = delegateCalls w0.trace + 1 ∧
    (b.AuthenticateRequest x req w0).2.ext = (b.delegate.AuthenticateRequest req w0.ext).2 := by
  have hd : b.delegate.AuthenticateRequest req w0.ext =
      (((b.delegate.AuthenticateRequest req w0.ext).1.1,
        (b.delegate.AuthenticateRequest req w0.ext).1.2.1,
        (b.delegate.AuthenticateRequest req w0.ext).1.2.2),
        (b.delegate.AuthenticateRequest req w0.ext).2) := rfl
  rcases AuthenticateRequest_cases x b req w0 _ _ _ _ hd with
    ⟨_, h⟩ | ⟨_, _, _, h⟩ | ⟨i, _, _, _, _, h⟩
  · rw [h]
    refine ⟨⟨[], rfl, Or.inl rfl⟩, ?_, rfl⟩
    simp [delegateCalls, List.countP_append, Call.isDelegate]
  · rw [h]
    refine ⟨⟨[], rfl, Or.inl rfl⟩, ?_, rfl⟩
    simp [delegateCalls, List.countP_append, Call.isDelegate]
  · rw [h]
    refine ⟨⟨[.HashAndUID b.secrets b.namespaces], ?_, Or.inr rfl⟩, ?_, rfl⟩
    · simp
    · simp [delegateCalls, List.countP_append, Call.isDelegate]

/-- C16. The decorator grants no more than the delegate: with `(u, ok, err)`
the delegate's result, a result `(r, true, nil)` of `AuthenticateRequest`
means the delegate returned exactly `(r, true, nil)`; the identity of every
result is nil or `u`; and when `err` is non-nil or `ok` is false the result is
the delegate's own `(u, ok, err)`. -/
theorem AuthenticateRequest_grants_no_more {σ : Type} (x : Externals σ)
    (b : bootstrapAuthenticator σ) (req : Request) (w0 : World σ)
    (u : Info) (ok : Bool) (err : GoError) (s1 : σ)
    (hd : b.delegate.AuthenticateRequest req w0.ext = ((u, ok, err), s1)) :
    (∀ r : Info, (b.AuthenticateRequest x req w0).1 = .ret (r, true, none) →
      (u, ok, err) = (r, true, none)) ∧
    (∀ (r : Info) (k : Bool) (e : GoError),
      (b.AuthenticateRequest x req w0).1 = .ret (r, k, e) → r = none ∨ r = u) ∧
    ((err ≠ none ∨ ok = false) → (b.AuthenticateRequest x req w0).1 = .ret (u, ok, err)) := by
  rcases AuthenticateRequest_cases x b req w0 u ok err s1 hd with
    ⟨_, h⟩ | ⟨hu, hk, he, h⟩ | ⟨i, hu, hk, he, hn, _⟩
  · rw [h]
    refine ⟨?_, ?_, ?_⟩
    · intro r hr
      injection hr with hr
    · intro r k e hr
      injection hr with hr
      exact Or.inr (congrArg (fun t : Info × Bool × GoError => t.1) hr).symm
    · intro _
      rfl
  · rw [h]
    subst hu hk he
    refine ⟨?_, ?_, ?_⟩
    · intro r hr
      exact absurd hr (by simp)
    · intro r k e hr
      exact absurd hr (by simp)
    · intro hc
      rcases hc with hc | hc
      · exact absurd rfl hc
      · exact absurd hc (by decide)
  · subst hu hk he
    rcases hx : x.HashAndUID b.secrets b.namespaces s1 with ⟨hash, uid, found, e⟩
    rw [AuthenticateRequest_bootstrap x b req w0 i s1 hash uid found e hd hn hx]
    refine ⟨?_, ?_, ?_⟩
    · intro r hr
      by_cases h1 : e ≠ none ∨ found = false
      · simp only [h1, if_true] at hr
        injection hr with hr
        have hf : found = true := congrArg (fun t : Info × Bool × GoError => t.2.1) hr
        have hn2 : e = none := congrArg (fun t : Info × Bool × GoError => t.2.2) hr
        rcases h1 with h | h
        · exact absurd hn2 h
        · rw [hf] at h
          exact absurd h (by decide)
      · simp only [h1, if_false] at hr
        by_cases h2 : uid = i.uid
        · simp only [h2, ne_eq, not_true_eq_false, if_false] at hr
          injection hr with hr
        · simp only [h2, ne_eq, not_false_eq_true, if_true] at hr
          injection hr with hr
          have hb : false = true := congrArg (fun t : Info × Bool × GoError => t.2.1) hr
          exact absurd hb (by decide)
    · intro r k e2 hr
      by_cases h1 : e ≠ none ∨ found = false
      · simp only [h1, if_true] at hr
        injection hr with hr
        exact Or.inl (congrArg (fun t : Info × Bool × GoError => t.1) hr).symm
      · simp only [h1, if_false] at hr
        by_cases h2 : uid = i.uid
        · simp only [h2, ne_eq, not_true_eq_false, if_false] at hr
          injection hr with hr
          exact Or.inr (congrArg (fun t : Info × Bool × GoError => t.1) hr).symm
        · simp only [h2, ne_eq, not_false_eq_true, if_true] at hr
          injection hr with hr
          exact Or.inl (congrArg (fun t : Info × Bool × GoError => t.1) hr).symm
    · intro hc
      rcases hc with hc | hc
      · exact absurd rfl hc
      · exact absurd hc (by decide)

/-- C16 on a delegate that fails with `ok` false while naming the bootstrap
user, and a lookup that would accept the session: the decorator returns the
delegate's failure. -/
theorem AuthenticateRequest_grants_no_more_witness :
    ((fixedAuthenticator (some bootstrapInfo, false, none) (false, none) none).AuthenticateRequest
        (fixedExternals ("h2", "v1", true, none) none) { id := 7 } world0).1 =
      .ret (some bootstrapInfo, false, none) :=
  (AuthenticateRequest_grants_no_more (fixedExternals ("h2", "v1", true, none) none)
    (fixedAuthenticator (some bootstrapInfo, false, none) (false, none) none) { id := 7 } world0
    (some bootstrapInfo) false none ["delegate.AuthenticateRequest"] rfl).2.2 (Or.inr rfl)

/-- C17. The credential hash does not matter: for two sets of externals with
the same bootstrap name whose credential lookups, read in the state the
delegate left, agree on version token, found flag and error, whatever hashes
they return, `AuthenticateRequest` gives the same result and world. -/
theorem AuthenticateRequest_hash_independent {σ : Type} (x1 x2 : Externals σ)
    (b : bootstrapAuthenticator σ) (req : Request) (w0 : World σ)
    (hB : x1.BootstrapUser = x2.BootstrapUser)
    (ho : (x1.HashAndUID b.secrets b.namespaces
            (b.delegate.AuthenticateRequest req w0.ext).2).2 =
          (x2.HashAndUID b.secrets b.namespaces
            (b.delegate.AuthenticateRequest req w0.ext).2).2) :
    b.AuthenticateRequest x1 req w0 = b.AuthenticateRequest x2 req w0 := by
  rcases hd : b.delegate.AuthenticateRequest req w0.ext with ⟨⟨u, ok, err⟩, s1⟩
  rw [hd] at ho
  rcases h1 : x1.HashAndUID b.secrets b.namespaces s1 with ⟨hash1, uid1, f1, e1⟩
  rcases h2 : x2.HashAndUID b.secrets b.namespaces s1 with ⟨hash2, uid2, f2, e2⟩
  rw [h1, h2] at ho
  simp only [Prod.mk.injEq] at ho
  obtain ⟨rfl, rfl, rfl⟩ := ho
  unfold bootstrapAuthenticator.AuthenticateRequest World.call World.read
  simp only [hd, h1, h2, hB]

/-- C17 on the fresh session of the specification with hashes `h2` and `h3`:
both runs accept the session. -/
theorem AuthenticateRequest_hash_independent_witness :
    (fixedAuthenticator (some bootstrapInfo, true, none) (false, none) none).AuthenticateRequest
        (fixedExternals ("h2", "v1", true, none) none) { id := 7 } world0 =
      (fixedAuthenticator (some bootstrapInfo, true, none) (false, none) none).AuthenticateRequest
        (fixedExternals ("h3", "v1", true, none) none) { id := 7 } world0 :=
  AuthenticateRequest_hash_independent (fixedExternals ("h2", "v1", true, none) none)
    (fixedExternals ("h3", "v1", true, none) none)
    (fixedAuthenticator (some bootstrapInfo, true, none) (false, none) none) { id := 7 } world0
    rfl rfl

/-- C18. No look at a failed result: with `(u, ok, err)` the delegate's
result, when `err` is non-nil or `ok` is false `AuthenticateRequest` returns
`(u, ok, err)` for every `u`, the nil identity included, without a panic; when
`u` is non-nil whenever `ok` is true and `err` is nil, the call does not panic;
and it panics exactly when `u` is nil, `ok` is true and `err` is nil. -/
theorem AuthenticateRequest_total {σ : Type} (x : Externals σ)
    (b : bootstrapAuthenticator σ) (req : Request) (w0 : World σ)
    (u : Info) (ok : Bool) (err : GoError) (s1 : σ)
    (hd : b.delegate.AuthenticateRequest req w0.ext = ((u, ok, err), s1)) :
    ((err ≠ none ∨ ok = false) →
      b.AuthenticateRequest x req w0 =
        (.ret (u, ok, err),
          { ext := s1, trace := w0.trace ++ [.delegateAuthenticateRequest req] })) ∧
    ((ok = true → err = none → u ≠ none) →
      ∃ r : Info × Bool × GoError, (b.AuthenticateRequest x req w0).1 = .ret r) ∧
    ((b.AuthenticateRequest x req w0).1 = .panic ↔ (u = none ∧ ok = true ∧ err = none)) := by
  rcases AuthenticateRequest_cases x b req w0 u ok err s1 hd with
    ⟨hc, h⟩ | ⟨hu, hk, he, h⟩ | ⟨i, hu, hk, he, hn, _⟩
  · rw [h]
    refine ⟨fun _ => rfl, fun _ => ⟨(u, ok, err), rfl⟩, ?_⟩
    constructor
    · intro hp
      exact absurd hp (by simp)
    · rintro ⟨hu, hk, he⟩
      rcases hc with hc | hc | ⟨i, hi, _⟩
      · exact absurd he hc
      · rw [hk] at hc
        exact absurd hc (by decide)
      · rw [hu] at hi
        exact absurd hi (by simp)
  · rw [h]
    refine ⟨?_, ?_, ?_⟩
    · intro hc
      rcases hc with hc | hc
      · exact absurd he hc
      · rw [hk] at hc
        exact absurd hc (by decide)
    · intro hp
      exact absurd hu (hp hk he)
    · exact ⟨fun _ => ⟨hu, hk, he⟩, fun _ => rfl⟩
  · subst hu hk he
    rcases hx : x.HashAndUID b.secrets b.namespaces s1 with ⟨hash, uid, found, e⟩
    rw [AuthenticateRequest_bootstrap x b req w0 i s1 hash uid found e hd hn hx]
    refine ⟨?_, ?_, ?_⟩
    · intro hc
      rcases hc with hc | hc
      · exact absurd rfl hc
      · exact absurd hc (by decide)
    · intro _
      by_cases h1 : e ≠ none ∨ found = false
      · exact ⟨_, if_pos h1⟩
      · by_cases h2 : uid ≠ i.uid
        · exact ⟨(none, false, none), by rw [if_neg h1, if_pos h2]⟩
        · exact ⟨(some i, true, none), by rw [if_neg h1, if_neg h2]⟩
    · constructor
      · intro hp
        by_cases h1 : e ≠ none ∨ found = false
        · rw [if_pos h1] at hp
          exact absurd hp (by simp)
        · by_cases h2 : uid ≠ i.uid
          · rw [if_neg h1, if_pos h2] at hp
            exact absurd hp (by simp)
          · rw [if_neg h1, if_neg h2] at hp
            exact absurd hp (by simp)
      · rintro ⟨hu, _, _⟩
        exact absurd hu (by simp)

/-- C18 on a delegate that returns a nil identity with `ok` false: the
decorator returns `(nil, false, nil)` and makes no lookup. -/
theorem AuthenticateRequest_total_witness :
    (fixedAuthenticator (none, false, none) (false, none) none).AuthenticateRequest
        (fixedExternals ("h2", "v1", true, none) none) { id := 7 } world0 =
      (.ret (none, false, none),
        { ext := ["delegate.AuthenticateRequest"]
          trace := [] ++ [.delegateAuthenticateRequest { id := 7 }] }) :=
  (AuthenticateRequest_total (fixedExternals ("h2", "v1", true, none) none)
    (fixedAuthenticator (none, false, none) (false, none) none) { id := 7 } world0
    none false none ["delegate.AuthenticateRequest"] rfl).1 (Or.inr rfl)

/-- C19. The success hook bypasses the delegate for the bootstrap user: for an
identity named `bootstrap.BootstrapUser`, `AuthenticationSucceeded` logs no
delegate call, returns handled flag `false`, and gives the same result and
world with any other delegate in place of its own. -/
theorem AuthenticationSucceeded_bypasses_delegate {σ : Type} (x : Externals σ)
    (b : bootstrapAuthenticator σ) (i : UserInfo) (state : String) (w : ResponseWriter)
    (req : Request) (w0 : World σ) (hn : i.name = x.BootstrapUser) :
    delegateCalls (b.AuthenticationSucceeded x (some i) state w req w0).2.trace =
      delegateCalls w0.trace ∧
    (∃ e : GoError, (b.AuthenticationSucceeded x (some i) state w req w0).1 = .ret (false, e)) ∧
    ∀ d2 : SessionAuthenticator σ,
      bootstrapAuthenticator.AuthenticationSucceeded x
          { delegate := d2, secrets := b.secrets, namespaces := b.namespaces, store := b.store }
          (some i) state w req w0 =
        b.AuthenticationSucceeded x (some i) state w req w0 := by
  have key : ∀ c : bootstrapAuthenticator σ, c.AuthenticationSucceeded x (some i) state w req w0 =
      (.ret (false, (x.putUser c.store w (some i) Hour w0.ext).1),
        { ext := (x.putUser c.store w (some i) Hour w0.ext).2
          trace := w0.trace ++ [.putUser c.store w (some i) Hour] }) := by
    intro c
    simp [bootstrapAuthenticator.AuthenticationSucceeded, World.call, GetName, hn]
  refine ⟨?_, ⟨_, congrArg Prod.fst (key b)⟩, ?_⟩
  · rw [key b]
    simp [delegateCalls, List.countP_append, Call.isDelegate]
  · intro d2
    rw [key b, key]

/-- C19 on a delegate whose success hook would answer handled `true`: for the
bootstrap user the decorator answers `false` and logs only the session write. -/
theorem AuthenticationSucceeded_bypasses_delegate_witness :
    delegateCalls ((fixedAuthenticator (some bootstrapInfo, true, none) (true, none)
        none).AuthenticationSucceeded (fixedExternals ("h2", "v1", true, none) none)
        (some bootstrapInfo) "state-a" { id := 3 } { id := 7 } world0).2.trace =
      delegateCalls world0.trace :=
  (AuthenticationSucceeded_bypasses_delegate (fixedExternals ("h2", "v1", true, none) none)
    (fixedAuthenticator (some bootstrapInfo, true, none) (true, none) none) bootstrapInfo
    "state-a" { id := 3 } { id := 7 } world0 rfl).1

end session
